import Mathlib

set_option autoImplicit false
set_option linter.unusedVariables false

/-!
Shallow embedding of `src/sentry/integrations/cloudflare/webhook.py`
(class `CloudflareWebhookEndpoint` and the `requires_auth` decorator).

JSON objects that the handler reads and mutates are modelled as association
lists (`List (String × α)`) with Python-dict semantics: lookup returns the
unique binding, assignment overwrites in place.  The external collaborators
(the HMAC primitive, the directory lookups backed by the ORM, the token
authentication service, the process-wide options store) are fields of a
`World` record or explicit function parameters; the module's own control
flow is translated line by line.
-/

/-- Python dictionary read `d[k]` / `d.get(k)`: the binding for `k`, if any. -/
def alookup {α : Type} (l : List (String × α)) (k : String) : Option α :=
  match l with
  | [] => none
  | kv :: rest => if kv.1 == k then some kv.2 else alookup rest k

/-- Python dictionary write `d[k] = v`: overwrites the binding for `k` in
place, keeping every other binding. -/
def astore {α : Type} (l : List (String × α)) (k : String) (v : α) : List (String × α) :=
  match l with
  | [] => [(k, v)]
  | kv :: rest => if kv.1 == k then (k, v) :: rest else kv :: astore rest k v

/-- An organization row as the handler sees it: integer primary key and slug. -/
structure Organization where
  id : Nat
  slug : String
deriving DecidableEq

/-- A project row: integer primary key and slug. -/
structure Project where
  id : Nat
  slug : String
deriving DecidableEq

/-- A project API key; `dsnPublic` is the value of `get_dsn(public=True)`. -/
structure ProjectKey where
  dsnPublic : String
deriving DecidableEq

/-- One JSON-schema fragment as built by the wizard steps
(`data['install']['schema']['properties'][name]`).  The `dsn` fragment uses
`description` and `placeholder` and has no `enumNames`; the two others are
the reverse, hence the `Option` fields. -/
structure SchemaFragment where
  type : String
  title : String
  description : Option String
  placeholder : Option String
  order : Nat
  enum : List String
  enumNames : Option (List (String × String))
  required : Bool
deriving DecidableEq

/-- The mutable `install` object of the payload: `install.options` and
`install.schema.properties`. -/
structure Install where
  options : List (String × String)
  schemaProperties : List (String × SchemaFragment)
deriving DecidableEq

/-- The parsed JSON request body, restricted to the fields the handler
reads: `event`, `app.id` (`none` when `app` or `app.id` is absent),
`authentications.account.token.token` (`none` when any level of the path is
absent, the `KeyError` case), and `install`. -/
structure Payload where
  event : Option String
  appId : Option String
  accountToken : Option String
  install : Install
deriving DecidableEq

/-- An authenticated user; only the primary key matters to this module. -/
structure User where
  id : Nat
deriving DecidableEq

/-- The external collaborators, fixed for the duration of one request:

* `userOrganizations u` — `Organization.objects.get_for_user(user, scope='project:write')`
  for the user with id `u`;
* `organizationProjects o u` — `Project.objects.filter(organization=org,
  team__in=Team.objects.get_for_user(org, user, scope='project:write'))`
  for organization id `o` and user id `u`;
* `projectKeys p` — `ProjectKey.objects.filter(project=project)` for project id `p`;
* `resolveToken t` — the token-authentication service.  Modelled from the spec:
  `TokenAuthentication.authenticate_credentials` is not part of this module;
  per the spec it resolves a token string to a user+credential pair or fails,
  and a failure leaves the caller unauthenticated, hence `Option User`;
* `cloudflareSecretKey` — `options.get('cloudflare.secret-key')`. -/
structure World where
  userOrganizations : Nat → List Organization
  organizationProjects : Nat → Nat → List Project
  projectKeys : Nat → List ProjectKey
  resolveToken : String → Option User
  cloudflareSecretKey : String

/-- Response bodies the endpoint produces: the bare `Response(status=400)`,
the `{'proceed': b}` body, and the `{'install': ..., 'proceed': b}` body. -/
inductive ResponseBody where
  | empty : ResponseBody
  | proceedOnly : Bool → ResponseBody
  | installProceed : Install → Bool → ResponseBody
deriving DecidableEq

/-- An HTTP response: status code and body (`Response(...)` defaults to 200). -/
structure HttpResponse where
  status : Nat
  body : ResponseBody
deriving DecidableEq

/-- Modelled from the spec: Django's `constant_time_compare(a, b)` is a
constant-time equality check whose boolean result is equality of the two
strings.  (Its timing behaviour is modelled separately by `ctRun` below.) -/
def constant_time_compare (a b : String) : Bool := a == b

/-- `verify(self, payload, key, signature)`: compares `signature` in constant
time against the hex HMAC-SHA256 digest of `payload` keyed by `key`.  The
external primitive `hmac.new(key=..., msg=..., digestmod=sha256).hexdigest()`
is the parameter `hmacHex`, applied to the key and then the message. -/
def verify (hmacHex : String → String → String) (payload key signature : String) : Bool :=
  constant_time_compare signature (hmacHex key payload)

/-- `authenticate_from_json_token(self, data)`: extracts
`data['authentications']['account']['token']['token']` (a `KeyError` at any
level returns `None`, here the `accountToken` field being `none`) and
resolves it through the token-authentication collaborator. -/
def authenticate_from_json_token (w : World) (data : Payload) : Option User :=
  match data.accountToken with
  | none => none
  | some t => w.resolveToken t

/-- `organization_from_json(self, request, data, scope='project:write')`:
reads `install.options.organization` (`KeyError` → `None`), then returns the
first organization visible to the user whose stringified id equals it. -/
def organization_from_json (w : World) (user : User) (data : Payload) : Option Organization :=
  match alookup data.install.options "organization" with
  | none => none
  | some organizationId =>
    (w.userOrganizations user.id).find? (fun org => toString org.id == organizationId)

/-- The project queryset `Project.objects.filter(organization=org, team__in=...)`
used by `project_from_json` and `on_organization_change`.  When `org` is
`None` the filter matches no row (the organization foreign key of a project
is non-null), so the visible set is empty — modelled from the spec, which
states that a missing organization short-circuits dependent lookups to
"not found". -/
def visibleProjects (w : World) (user : User) (org : Option Organization) : List Project :=
  match org with
  | none => []
  | some o => w.organizationProjects o.id user.id

/-- `project_from_json(self, request, data, scope='project:write')`: reads
`install.options.project` (`KeyError` → `None`), resolves the organization,
and returns the first visible project whose stringified id matches. -/
def project_from_json (w : World) (user : User) (data : Payload) : Option Project :=
  match alookup data.install.options "project" with
  | none => none
  | some projectId =>
    (visibleProjects w user (organization_from_json w user data)).find?
      (fun p => toString p.id == projectId)

/-- `data['install']['schema']['properties'][name] = frag`. -/
def setSchema (data : Payload) (name : String) (frag : SchemaFragment) : Payload :=
  { data with install := { data.install with
      schemaProperties := astore data.install.schemaProperties name frag } }

/-- `data['install']['options'][name] = v`. -/
def setOption (data : Payload) (name : String) (v : String) : Payload :=
  { data with install := { data.install with
      options := astore data.install.options name v } }

/-- The keyset `ProjectKey.objects.filter(project=project)`; when `project`
is `None` the filter matches no row (non-null foreign key), as for
`visibleProjects`. -/
def visibleKeys (w : World) (project : Option Project) : List ProjectKey :=
  match project with
  | none => []
  | some p => w.projectKeys p.id

/-- `on_project_change` (wrapped by `requires_auth`): resolves the project,
lists its keys, stores the `dsn` schema fragment, defaults
`install.options.dsn` to the first enum entry when keys exist, and returns
200 with the (possibly mutated) payload.  Each handler returns the response
together with the final payload, making the in-place mutation of `data`
explicit. -/
def on_project_change (w : World) (user : Option User) (data : Payload) (is_test : Bool) :
    HttpResponse × Payload :=
  match user with
  | none => (⟨401, .proceedOnly false⟩, data)
  | some u =>
    let project := project_from_json w u data
    let keys := visibleKeys w project
    let frag : SchemaFragment :=
      { type := "string"
        title := "DSN"
        description := some "Your automatically configured DSN for communicating with Sentry."
        placeholder := some "https://public_key@sentry.io/1"
        order := 3
        enum := keys.map (fun k => k.dsnPublic)
        enumNames := none
        required := true }
    let data1 := setSchema data "dsn" frag
    let data2 :=
      match keys with
      | [] => data1
      | k :: _ => setOption data1 "dsn" k.dsnPublic
    (⟨200, .installProceed data2.install true⟩, data2)

/-- `on_organization_change` (wrapped by `requires_auth`): resolves the
organization, lists its visible projects, stores the `project` schema
fragment; when projects exist, defaults `install.options.project` to the
first enum entry and cascades into `on_project_change`, otherwise halts
with 200. -/
def on_organization_change (w : World) (user : Option User) (data : Payload) (is_test : Bool) :
    HttpResponse × Payload :=
  match user with
  | none => (⟨401, .proceedOnly false⟩, data)
  | some u =>
    let org := organization_from_json w u data
    let projects := visibleProjects w u org
    let frag : SchemaFragment :=
      { type := "string"
        title := "Sentry Project"
        description := none
        placeholder := none
        order := 2
        enum := projects.map (fun p => toString p.id)
        enumNames := some (projects.map (fun p => (toString p.id, p.slug)))
        required := true }
    let data1 := setSchema data "project" frag
    match projects with
    | [] => (⟨200, .installProceed data1.install true⟩, data1)
    | p :: _ => on_project_change w user (setOption data1 "project" (toString p.id)) is_test

/-- `on_account_change` (wrapped by `requires_auth`): lists the caller's
visible organizations, stores the `organization` schema fragment; when
organizations exist, defaults `install.options.organization` to the first
enum entry and cascades into `on_organization_change`, otherwise halts
with 200. -/
def on_account_change (w : World) (user : Option User) (data : Payload) (is_test : Bool) :
    HttpResponse × Payload :=
  match user with
  | none => (⟨401, .proceedOnly false⟩, data)
  | some u =>
    let organizations := w.userOrganizations u.id
    let frag : SchemaFragment :=
      { type := "string"
        title := "Sentry Organization"
        description := none
        placeholder := none
        order := 1
        enum := organizations.map (fun o => toString o.id)
        enumNames := some (organizations.map (fun o => (toString o.id, o.slug)))
        required := true }
    let data1 := setSchema data "organization" frag
    match organizations with
    | [] => (⟨200, .installProceed data1.install true⟩, data1)
    | o :: _ => on_organization_change w user (setOption data1 "organization" (toString o.id)) is_test

/-- `on_preview`: an unauthenticated caller gets the payload echoed with 200;
an authenticated one is delegated to `on_account_change`. -/
def on_preview (w : World) (user : Option User) (data : Payload) (is_test : Bool) :
    HttpResponse × Payload :=
  match user with
  | none => (⟨200, .installProceed data.install true⟩, data)
  | some _ => on_account_change w user data is_test

/-- An incoming request: the two signature headers (`none` when absent),
the session authentication state of `request.user`, the raw body, and the
result of `json.loads` on it (`none` models the `ValueError`/`TypeError`
parse failure). -/
structure Request where
  signature : Option String
  variant : Option String
  user : Option User
  rawBody : String
  parsed : Option Payload

/-- The caller identity after the secondary-auth block of `post` (lines
184–190): a session-authenticated user is kept; otherwise the embedded
token is resolved, a failure leaving the caller unauthenticated. -/
def effectiveUser (w : World) (req : Request) (data : Payload) : Option User :=
  match req.user with
  | some u => some u
  | none => authenticate_from_json_token w data

/-- The event dispatch at the end of `post` (lines 218–228): the three
option-change steps, preview, and the default echo of the payload. -/
def dispatchEvent (w : World) (user : Option User) (data : Payload) (is_test : Bool) :
    HttpResponse × Payload :=
  if data.event == some "option-change:account" then
    on_account_change w user data is_test
  else if data.event == some "option-change:organization" then
    on_organization_change w user data is_test
  else if data.event == some "option-change:project" then
    on_project_change w user data is_test
  else if data.event == some "preview" then
    on_preview w user data is_test
  else
    (⟨200, .installProceed data.install true⟩, data)

/-- The outcome of `post`: the response, the final `request.user` (recording
the identity upgrade), and the final payload (recording the in-place
mutations; `none` when the body never parsed). -/
structure PostResult where
  response : HttpResponse
  finalUser : Option User
  finalData : Option Payload
deriving DecidableEq

/-- `post(self, request)`, translated control-flow step by step: parse the
body; upgrade the caller identity from the embedded token; reject an absent
or empty signature or variant with 400; select the key by variant (`test` →
the fixed test key, `1` → the configured secret, otherwise 400); reject the
test variant with 400 unless `app.id` is `'local'` or `''`; verify the
signature over the raw body; dispatch on the event. -/
def post (w : World) (hmacHex : String → String → String) (req : Request) : PostResult :=
  match req.parsed with
  | none => ⟨⟨400, .empty⟩, req.user, none⟩
  | some data =>
    let user := effectiveUser w req data
    let signature := req.signature.getD ""
    let variant := req.variant.getD ""
    if signature == "" then ⟨⟨400, .empty⟩, user, some data⟩
    else if variant == "" then ⟨⟨400, .empty⟩, user, some data⟩
    else
      let key? : Option String :=
        if variant == "test" then some "test-key"
        else if variant == "1" then some w.cloudflareSecretKey
        else none
      match key? with
      | none => ⟨⟨400, .empty⟩, user, some data⟩
      | some key =>
        let appOk := data.appId == some "local" || data.appId == some ""
        if !appOk && variant == "test" then ⟨⟨400, .empty⟩, user, some data⟩
        else if !(verify hmacHex req.rawBody key signature) then ⟨⟨400, .empty⟩, user, some data⟩
        else
          let step := dispatchEvent w user data (variant == "test")
          ⟨step.1, user, some step.2⟩

/-! ## Dictionary lemmas -/

theorem alookup_astore_self {α : Type} (l : List (String × α)) (k : String) (v : α) :
    alookup (astore l k v) k = some v := by
  induction l with
  | nil => simp [astore, alookup]
  | cons kv rest ih =>
    by_cases h : kv.1 == k
    · simp [astore, alookup, h]
    · simp [astore, alookup, h, ih]

theorem alookup_astore_ne {α : Type} (l : List (String × α)) (k k' : String) (v : α)
    (h : (k == k') = false) : alookup (astore l k v) k' = alookup l k' := by
  induction l with
  | nil => simp [astore, alookup, h]
  | cons kv rest ih =>
    by_cases hkv : kv.1 == k
    · have hk : kv.1 = k := by simpa using hkv
      simp [astore, alookup, hkv, hk, h]
    · by_cases hk' : kv.1 == k'
      · simp [astore, alookup, hkv, hk']
      · simp [astore, alookup, hkv, hk', ih]

/-! ## C2: signature verification round-trip -/

/-- C2: for every HMAC primitive, payload, and secret, `verify` accepts the
hex digest of the payload under that secret, and rejects every signature
string that differs from it in any way. -/
theorem verify_accepts_exactly_the_digest (hmacHex : String → String → String)
    (payload key : String) :
    verify hmacHex payload key (hmacHex key payload) = true ∧
    ∀ signature, signature ≠ hmacHex key payload →
      verify hmacHex payload key signature = false := by
  refine ⟨by simp [verify, constant_time_compare], ?_⟩
  intro s hs
  simp [verify, constant_time_compare]
  exact hs

/-- Witness for C2 at a concrete HMAC primitive, payload, and secret. -/
theorem verify_accepts_exactly_the_digest_witness :
    verify (fun k m => k ++ m) "msg" "key" ((fun k m => k ++ m) "key" "msg") = true ∧
    verify (fun k m => k ++ m) "msg" "key" "nope" = false := by
  refine ⟨(verify_accepts_exactly_the_digest (fun k m => k ++ m) "msg" "key").1, ?_⟩
  exact (verify_accepts_exactly_the_digest (fun k m => k ++ m) "msg" "key").2 "nope" (by decide)

/-! ## C10: constant-time comparison cost model -/

/-- Modelled from the spec: the byte-level run of the constant-time equality
check used by `verify` (Django's `constant_time_compare`, i.e.
`hmac.compare_digest`).  It walks every corresponding byte pair, folding the
OR of the XORs of the pairs instead of exiting at the first mismatch, and
counts one step per byte pair inspected.  Returns the accumulated
difference together with the step count. -/
def ctRun : List Nat → List Nat → Nat × Nat
  | x :: xs, y :: ys =>
    let r := ctRun xs ys
    ((x ^^^ y) ||| r.1, r.2 + 1)
  | _, _ => (0, 0)

/-- Boolean outcome of the modelled constant-time comparison: equal lengths
and a zero accumulated difference. -/
def ctEqual (a b : List Nat) : Bool :=
  a.length == b.length && (ctRun a b).1 == 0

theorem natLorEqZero (a b : Nat) : a ||| b = 0 ↔ a = 0 ∧ b = 0 := by
  constructor
  · intro h
    have ht : ∀ i, a.testBit i = false ∧ b.testBit i = false := by
      intro i
      have hi : (a ||| b).testBit i = Nat.testBit 0 i := by rw [h]
      simpa [Nat.testBit_lor] using hi
    refine ⟨Nat.eq_of_testBit_eq fun i => ?_, Nat.eq_of_testBit_eq fun i => ?_⟩ <;>
      simp [(ht i).1, (ht i).2]
  · rintro ⟨rfl, rfl⟩
    rfl

theorem ctRun_steps (a b : List Nat) : (ctRun a b).2 = min a.length b.length := by
  induction a generalizing b with
  | nil => cases b <;> simp [ctRun]
  | cons x xs ih =>
    cases b with
    | nil => simp [ctRun]
    | cons y ys => simp [ctRun, ih, Nat.succ_min_succ]

theorem ctRun_fst_eq_zero (a b : List Nat) (h : a.length = b.length) :
    (ctRun a b).1 = 0 ↔ a = b := by
  induction a generalizing b with
  | nil =>
    cases b with
    | nil => simp [ctRun]
    | cons y ys => simp at h
  | cons x xs ih =>
    cases b with
    | nil => simp at h
    | cons y ys =>
      have hl : xs.length = ys.length := by simpa using h
      simp [ctRun, natLorEqZero, Nat.xor_eq_zero, ih ys hl]

/-- C10: in the cost model of the comparison `verify` relies on, the number
of byte-comparison steps depends only on the lengths of the two inputs —
in particular it is independent of where the first mismatched byte occurs —
while the boolean outcome is exactly equality of the byte strings. -/
theorem constant_time_compare_step_count_content_independent
    (a b b' : List Nat) (h : b.length = b'.length) :
    (ctRun a b).2 = (ctRun a b').2 ∧ (ctEqual a b = true ↔ a = b) := by
  constructor
  · rw [ctRun_steps, ctRun_steps, h]
  · constructor
    · intro hc
      have hc' := hc
      simp [ctEqual] at hc'
      exact (ctRun_fst_eq_zero a b hc'.1).1 hc'.2
    · rintro rfl
      simp [ctEqual, (ctRun_fst_eq_zero a a rfl).2 rfl]

/-- Witness for C10: same lengths, mismatches at different positions, same
step count; and a concrete equality decided by the comparison. -/
theorem constant_time_compare_step_count_content_independent_witness :
    (ctRun [1, 2, 3] [9, 2, 3]).2 = (ctRun [1, 2, 3] [1, 2, 9]).2 ∧
    (ctEqual [1, 2, 3] [9, 2, 3] = true ↔ [1, 2, 3] = [9, 2, 3]) :=
  constant_time_compare_step_count_content_independent [1, 2, 3] [9, 2, 3] [1, 2, 9] (by decide)

/-! ## Status range of the step handlers -/

theorem on_project_change_status (w : World) (user : Option User) (data : Payload) (t : Bool) :
    (on_project_change w user data t).1.status = 200 ∨
    (on_project_change w user data t).1.status = 401 := by
  cases user <;> simp [on_project_change]

theorem on_organization_change_status (w : World) (user : Option User) (data : Payload) (t : Bool) :
    (on_organization_change w user data t).1.status = 200 ∨
    (on_organization_change w user data t).1.status = 401 := by
  cases user with
  | none => simp [on_organization_change]
  | some u =>
    simp only [on_organization_change]
    split
    · simp
    · apply on_project_change_status

theorem on_account_change_status (w : World) (user : Option User) (data : Payload) (t : Bool) :
    (on_account_change w user data t).1.status = 200 ∨
    (on_account_change w user data t).1.status = 401 := by
  cases user with
  | none => simp [on_account_change]
  | some u =>
    simp only [on_account_change]
    split
    · simp
    · apply on_organization_change_status

theorem on_preview_status (w : World) (user : Option User) (data : Payload) (t : Bool) :
    (on_preview w user data t).1.status = 200 ∨
    (on_preview w user data t).1.status = 401 := by
  cases user with
  | none => simp [on_preview]
  | some u => exact on_account_change_status w (some u) data t

theorem dispatchEvent_status (w : World) (user : Option User) (data : Payload) (t : Bool) :
    (dispatchEvent w user data t).1.status = 200 ∨
    (dispatchEvent w user data t).1.status = 401 := by
  unfold dispatchEvent
  split
  · apply on_account_change_status
  split
  · apply on_organization_change_status
  split
  · apply on_project_change_status
  split
  · apply on_preview_status
  simp

/-! ## Reduction of `post` on a verified production-variant request -/

theorem post_verified_prod (w : World) (hmacHex : String → String → String)
    (req : Request) (data : Payload) (s : String)
    (hp : req.parsed = some data)
    (hs : req.signature = some s) (hs0 : s ≠ "")
    (hv : req.variant = some "1")
    (hsig : s = hmacHex w.cloudflareSecretKey req.rawBody) :
    post w hmacHex req =
      ⟨(dispatchEvent w (effectiveUser w req data) data false).1,
       effectiveUser w req data,
       some (dispatchEvent w (effectiveUser w req data) data false).2⟩ := by
  subst hsig
  have hse : (hmacHex w.cloudflareSecretKey req.rawBody == "") = false :=
    beq_eq_false_iff_ne.mpr hs0
  simp [post, hp, hs, hv, hse, verify, constant_time_compare]

/-! ## Concrete sample data for the witnesses -/

/-- A concrete world for the witnesses: user 7 sees one organization (id 1)
holding one project (id 10) with one key; user 8 sees nothing; the token
`"tok"` resolves to user 7; the production secret is fixed. -/
def sampleWorld : World :=
  { userOrganizations := fun u => if u == 7 then [⟨1, "acme"⟩] else []
    organizationProjects := fun o u => if o == 1 && u == 7 then [⟨10, "site"⟩] else []
    projectKeys := fun p => if p == 10 then [⟨"https://abc@sentry.io/10"⟩] else []
    resolveToken := fun t => if t == "tok" then some ⟨7⟩ else none
    cloudflareSecretKey := "prodsecret" }

/-- A concrete benign payload for the witnesses. -/
def samplePayload : Payload :=
  { event := some "option-change:account"
    appId := none
    accountToken := none
    install := { options := [], schemaProperties := [] } }

/-- A payload whose selected organization and project ids are not visible to
any caller of `sampleWorld`. -/
def unknownIdPayload : Payload :=
  { event := some "option-change:organization"
    appId := none
    accountToken := none
    install := { options := [("organization", "99"), ("project", "10")], schemaProperties := [] } }

/-! ## C8: account step with zero visible organizations -/

/-- C8: an authenticated caller with zero visible organizations gets 200 with
`proceed = true` from the account step; the schema gains an `organization`
fragment with an empty enum, and `install.options` is returned unchanged. -/
theorem account_change_zero_organizations (w : World) (user : User) (data : Payload)
    (is_test : Bool) (h : w.userOrganizations user.id = []) :
    ∃ frag : SchemaFragment,
      (on_account_change w (some user) data is_test).1 =
        ⟨200, .installProceed
          { options := data.install.options
            schemaProperties := astore data.install.schemaProperties "organization" frag } true⟩ ∧
      frag.enum = [] := by
  refine ⟨{ type := "string", title := "Sentry Organization", description := none,
            placeholder := none, order := 1, enum := [], enumNames := some [],
            required := true }, ?_, rfl⟩
  simp [on_account_change, h, setSchema]

/-- Witness for C8: user 8 of the sample world sees no organizations. -/
theorem account_change_zero_organizations_witness :
    ∃ frag : SchemaFragment,
      (on_account_change sampleWorld (some ⟨8⟩) samplePayload false).1 =
        ⟨200, .installProceed
          { options := samplePayload.install.options
            schemaProperties := astore samplePayload.install.schemaProperties "organization" frag } true⟩ ∧
      frag.enum = [] :=
  account_change_zero_organizations sampleWorld ⟨8⟩ samplePayload false rfl

/-! ## C5: unknown ids resolve to not-found, without exceptions -/

/-- C5: an `install.options.organization` (resp. `.project`) id outside the
caller's visible set makes `organization_from_json` (resp.
`project_from_json`) return `none` — both are total functions, so no
exception is possible — and a missing organization short-circuits the
dependent project lookup to `none` as well. -/
theorem unknown_ids_resolve_to_none (w : World) (u : User) (data : Payload) :
    (∀ oid, alookup data.install.options "organization" = some oid →
      (∀ org ∈ w.userOrganizations u.id, toString org.id ≠ oid) →
      organization_from_json w u data = none) ∧
    (organization_from_json w u data = none → project_from_json w u data = none) ∧
    (∀ pid, alookup data.install.options "project" = some pid →
      (∀ p ∈ visibleProjects w u (organization_from_json w u data), toString p.id ≠ pid) →
      project_from_json w u data = none) := by
  refine ⟨?_, ?_, ?_⟩
  · intro oid hl hne
    simp [organization_from_json, hl, List.find?_eq_none]
    intro org ho
    simpa using hne org ho
  · intro h
    unfold project_from_json
    cases hpl : alookup data.install.options "project" with
    | none => rfl
    | some pid => simp [h, visibleProjects]
  · intro pid hl hne
    simp [project_from_json, hl, List.find?_eq_none]
    intro p hp
    simpa using hne p hp

/-- Witness for C5: organization id 99 is not visible to user 7 of the
sample world, and the dependent project lookup then returns `none` too. -/
theorem unknown_ids_resolve_to_none_witness :
    organization_from_json sampleWorld ⟨7⟩ unknownIdPayload = none ∧
    project_from_json sampleWorld ⟨7⟩ unknownIdPayload = none := by
  have h := unknown_ids_resolve_to_none sampleWorld ⟨7⟩ unknownIdPayload
  have h1 := h.1 "99" (by rfl) (by decide)
  exact ⟨h1, h.2.1 h1⟩

/-! ## C7: option-change events require an authenticated caller -/

/-- C7: an unauthenticated caller (no session user and no resolvable
embedded token) posting any of the three option-change events on a verified
request gets 401 with body `proceed = false`, and the payload comes out of
the request untouched. -/
theorem unauthenticated_option_change_401 (w : World) (hmacHex : String → String → String)
    (req : Request) (data : Payload) (s e : String)
    (hu : req.user = none)
    (ht : authenticate_from_json_token w data = none)
    (hp : req.parsed = some data)
    (he : data.event = some e)
    (hev : e = "option-change:account" ∨ e = "option-change:organization" ∨
      e = "option-change:project")
    (hs : req.signature = some s) (hs0 : s ≠ "")
    (hv : req.variant = some "1")
    (hsig : s = hmacHex w.cloudflareSecretKey req.rawBody) :
    (post w hmacHex req).response = ⟨401, .proceedOnly false⟩ ∧
    (post w hmacHex req).finalData = some data := by
  rw [post_verified_prod w hmacHex req data s hp hs hs0 hv hsig]
  have hu' : effectiveUser w req data = none := by simp [effectiveUser, hu, ht]
  rcases hev with rfl | rfl | rfl <;>
    simp [dispatchEvent, he, hu', on_account_change, on_organization_change, on_project_change]

/-- The concrete HMAC primitive used by the witnesses: key concatenated with
the message stands in for the hex digest. -/
def sampleHmac : String → String → String := fun k m => k ++ m

/-- A verified, production-variant, unauthenticated request carrying
`samplePayload`. -/
def unauthReq : Request :=
  { signature := some "prodsecretbody"
    variant := some "1"
    user := none
    rawBody := "body"
    parsed := some samplePayload }

/-- Witness for C7 on the concrete unauthenticated request. -/
theorem unauthenticated_option_change_401_witness :
    (post sampleWorld sampleHmac unauthReq).response = ⟨401, .proceedOnly false⟩ ∧
    (post sampleWorld sampleHmac unauthReq).finalData = some samplePayload :=
  unauthenticated_option_change_401 sampleWorld sampleHmac unauthReq samplePayload
    "prodsecretbody" "option-change:account" rfl rfl rfl rfl (Or.inl rfl) rfl
    (by decide) rfl rfl

/-! ## C3: the test variant demands a local or empty app id -/

/-- C3: under the test variant, a request whose `app.id` is neither `""` nor
`"local"` is rejected with 400; with `app.id` in that set the request
proceeds to signature verification against the fixed test key, after which
no 400 is possible (the dispatch only produces 200 or 401). -/
theorem test_variant_requires_local_app (w : World) (hmacHex : String → String → String)
    (req : Request) (data : Payload) (s : String)
    (hp : req.parsed = some data)
    (hv : req.variant = some "test")
    (hs : req.signature = some s) (hs0 : s ≠ "") :
    (data.appId ≠ some "" ∧ data.appId ≠ some "local" →
      (post w hmacHex req).response = ⟨400, .empty⟩) ∧
    ((data.appId = some "" ∨ data.appId = some "local") →
      s = hmacHex "test-key" req.rawBody →
      (post w hmacHex req).response.status ≠ 400) := by
  constructor
  · rintro ⟨h1, h2⟩
    have hse : (s == "") = false := beq_eq_false_iff_ne.mpr hs0
    have hb1 : (data.appId == some "local") = false := beq_eq_false_iff_ne.mpr h2
    have hb2 : (data.appId == some "") = false := beq_eq_false_iff_ne.mpr h1
    simp [post, hp, hv, hs, hse, hb1, hb2]
  · intro hOk hsig
    subst hsig
    have hse : (hmacHex "test-key" req.rawBody == "") = false :=
      beq_eq_false_iff_ne.mpr hs0
    have hOk' : (data.appId == some "local" || data.appId == some "") = true := by
      rcases hOk with h | h <;> simp [h]
    rcases dispatchEvent_status w (effectiveUser w req data) data true with hst | hst <;>
      simp [post, hp, hv, hs, hse, hOk', verify, constant_time_compare, hst]

/-- A payload naming a real app id, to be rejected under the test variant. -/
def realAppPayload : Payload :=
  { event := none
    appId := some "real-app"
    accountToken := none
    install := { options := [], schemaProperties := [] } }

/-- The corresponding test-variant request. -/
def testVariantReq : Request :=
  { signature := some "sig"
    variant := some "test"
    user := none
    rawBody := "body"
    parsed := some realAppPayload }

/-- Witness for C3: the concrete test-variant request with a real app id is
rejected with 400. -/
theorem test_variant_requires_local_app_witness :
    (post sampleWorld sampleHmac testVariantReq).response = ⟨400, .empty⟩ := by
  have h := test_variant_requires_local_app sampleWorld sampleHmac testVariantReq
    realAppPayload "sig" rfl rfl rfl (by decide)
  exact h.1 (by decide)

/-! ## C1: full cascade in a single request -/

theorem on_account_change_cascade (w : World) (u : User) (data : Payload) (t : Bool)
    (o : Organization) (p : Project) (k : ProjectKey)
    (horg : w.userOrganizations u.id = [o])
    (hproj : w.organizationProjects o.id u.id = [p])
    (hkeys : w.projectKeys p.id = [k]) :
    ∃ inst : Install,
      (on_account_change w (some u) data t).1 = ⟨200, .installProceed inst true⟩ ∧
      alookup inst.options "organization" = some (toString o.id) ∧
      alookup inst.options "project" = some (toString p.id) ∧
      alookup inst.options "dsn" = some k.dsnPublic ∧
      (alookup inst.schemaProperties "organization").isSome = true ∧
      (alookup inst.schemaProperties "project").isSome = true ∧
      (alookup inst.schemaProperties "dsn").isSome = true := by
  simp [on_account_change, on_organization_change, on_project_change,
    organization_from_json, project_from_json, visibleProjects, visibleKeys,
    setOption, setSchema, horg, hproj, hkeys,
    alookup_astore_self, alookup_astore_ne,
    List.find?]

/-- C1: a verified production-variant request from an authenticated caller
with exactly one visible organization, exactly one visible project in it,
and exactly one API key on that project, posting
`event = option-change:account`, produces in that single call one 200
response whose `install.options` carries the organization id, the project
id, and the DSN, and whose schema carries all three fragments. -/
theorem account_cascade_single_request (w : World) (hmacHex : String → String → String)
    (req : Request) (data : Payload) (s : String) (u : User)
    (o : Organization) (p : Project) (k : ProjectKey)
    (hu : req.user = some u)
    (hp : req.parsed = some data)
    (he : data.event = some "option-change:account")
    (hs : req.signature = some s) (hs0 : s ≠ "")
    (hv : req.variant = some "1")
    (hsig : s = hmacHex w.cloudflareSecretKey req.rawBody)
    (horg : w.userOrganizations u.id = [o])
    (hproj : w.organizationProjects o.id u.id = [p])
    (hkeys : w.projectKeys p.id = [k]) :
    ∃ inst : Install,
      (post w hmacHex req).response = ⟨200, .installProceed inst true⟩ ∧
      alookup inst.options "organization" = some (toString o.id) ∧
      alookup inst.options "project" = some (toString p.id) ∧
      alookup inst.options "dsn" = some k.dsnPublic ∧
      (alookup inst.schemaProperties "organization").isSome = true ∧
      (alookup inst.schemaProperties "project").isSome = true ∧
      (alookup inst.schemaProperties "dsn").isSome = true := by
  rw [post_verified_prod w hmacHex req data s hp hs hs0 hv hsig]
  have hu' : effectiveUser w req data = some u := by simp [effectiveUser, hu]
  have hd : dispatchEvent w (effectiveUser w req data) data false =
      on_account_change w (some u) data false := by
    simp [dispatchEvent, he, hu']
  simp only [hd]
  exact on_account_change_cascade w u data false o p k horg hproj hkeys

/-- The verified, authenticated account-change request of the sample world. -/
def authReq : Request :=
  { signature := some "prodsecretbody"
    variant := some "1"
    user := some ⟨7⟩
    rawBody := "body"
    parsed := some samplePayload }

/-- Witness for C1 on the sample world, where user 7 sees exactly one
organization, one project, and one key. -/
theorem account_cascade_single_request_witness :
    ∃ inst : Install,
      (post sampleWorld sampleHmac authReq).response = ⟨200, .installProceed inst true⟩ ∧
      alookup inst.options "organization" = some (toString (Organization.mk 1 "acme").id) ∧
      alookup inst.options "project" = some (toString (Project.mk 10 "site").id) ∧
      alookup inst.options "dsn" = some (ProjectKey.mk "https://abc@sentry.io/10").dsnPublic ∧
      (alookup inst.schemaProperties "organization").isSome = true ∧
      (alookup inst.schemaProperties "project").isSome = true ∧
      (alookup inst.schemaProperties "dsn").isSome = true :=
  account_cascade_single_request sampleWorld sampleHmac authReq samplePayload
    "prodsecretbody" ⟨7⟩ ⟨1, "acme"⟩ ⟨10, "site"⟩ ⟨"https://abc@sentry.io/10"⟩
    rfl rfl rfl rfl (by decide) rfl rfl rfl rfl rfl

/-! ## Identity and response facts used by C4 and C9 -/

theorem post_finalUser (w : World) (hmacHex : String → String → String)
    (req : Request) (data : Payload) (hp : req.parsed = some data) :
    (post w hmacHex req).finalUser = effectiveUser w req data := by
  simp only [post, hp]
  repeat' split
  all_goals rfl

theorem on_project_change_response_congr (w : World) (user : Option User)
    (d1 d2 : Payload) (t : Bool) (hi : d1.install = d2.install) :
    (on_project_change w user d1 t).1 = (on_project_change w user d2 t).1 := by
  cases user with
  | none => rfl
  | some u =>
    simp only [on_project_change, project_from_json, organization_from_json,
      visibleProjects, visibleKeys, setSchema, setOption]
    rw [hi]
    split <;> rfl

theorem on_organization_change_response_congr (w : World) (user : Option User)
    (d1 d2 : Payload) (t : Bool) (hi : d1.install = d2.install) :
    (on_organization_change w user d1 t).1 = (on_organization_change w user d2 t).1 := by
  cases user with
  | none => rfl
  | some u =>
    simp only [on_organization_change, organization_from_json, visibleProjects,
      setSchema, setOption]
    rw [hi]
    split
    · rfl
    · exact on_project_change_response_congr w (some u) _ _ t (by rfl)

theorem on_account_change_response_congr (w : World) (user : Option User)
    (d1 d2 : Payload) (t : Bool) (hi : d1.install = d2.install) :
    (on_account_change w user d1 t).1 = (on_account_change w user d2 t).1 := by
  cases user with
  | none => rfl
  | some u =>
    simp only [on_account_change, setSchema, setOption]
    rw [hi]
    split
    · rfl
    · exact on_organization_change_response_congr w (some u) _ _ t (by rfl)

theorem on_preview_response_congr (w : World) (user : Option User)
    (d1 d2 : Payload) (t : Bool) (hi : d1.install = d2.install) :
    (on_preview w user d1 t).1 = (on_preview w user d2 t).1 := by
  cases user with
  | none => simp [on_preview, hi]
  | some u => exact on_account_change_response_congr w (some u) d1 d2 t hi

theorem dispatchEvent_response_congr (w : World) (user : Option User)
    (d1 d2 : Payload) (t : Bool) (hi : d1.install = d2.install)
    (he : d1.event = d2.event) :
    (dispatchEvent w user d1 t).1 = (dispatchEvent w user d2 t).1 := by
  simp only [dispatchEvent, he]
  split
  · exact on_account_change_response_congr w user d1 d2 t hi
  split
  · exact on_organization_change_response_congr w user d1 d2 t hi
  split
  · exact on_project_change_response_congr w user d1 d2 t hi
  split
  · exact on_preview_response_congr w user d1 d2 t hi
  simp [hi]

theorem post_response_congr (w : World) (hmacHex : String → String → String)
    (req1 req2 : Request) (d1 d2 : Payload)
    (hp1 : req1.parsed = some d1) (hp2 : req2.parsed = some d2)
    (hsg : req1.signature = req2.signature)
    (hvr : req1.variant = req2.variant)
    (hrb : req1.rawBody = req2.rawBody)
    (hus : effectiveUser w req1 d1 = effectiveUser w req2 d2)
    (hi : d1.install = d2.install)
    (he : d1.event = d2.event)
    (ha : d1.appId = d2.appId) :
    (post w hmacHex req1).response = (post w hmacHex req2).response := by
  simp only [post, hp1, hp2, hsg, hvr, hrb, hus, ha]
  repeat' split
  all_goals first
    | rfl
    | exact dispatchEvent_response_congr w _ d1 d2 _ hi he

/-! ## C9: embedded-token identity is adopted before the header checks -/

/-- C9: when an unauthenticated request carries a resolvable embedded token,
`post` adopts the token's identity before the signature, variant, and
test-secret checks run, so on every path — the 400 rejections included —
the final caller identity is the token's user, not the anonymous one. -/
theorem token_identity_adopted_before_checks (w : World)
    (hmacHex : String → String → String)
    (req : Request) (data : Payload) (tok : String) (u : User)
    (hu : req.user = none)
    (hp : req.parsed = some data)
    (ht : data.accountToken = some tok)
    (hr : w.resolveToken tok = some u) :
    (post w hmacHex req).finalUser = some u := by
  rw [post_finalUser w hmacHex req data hp]
  simp [effectiveUser, hu, authenticate_from_json_token, ht, hr]

/-- A payload embedding the resolvable token of the sample world. -/
def tokenPayload : Payload :=
  { event := none
    appId := none
    accountToken := some "tok"
    install := { options := [], schemaProperties := [] } }

/-- A request carrying that token but *no* signature header, so it ends in
a 400 rejection. -/
def tokenReq : Request :=
  { signature := none
    variant := some "1"
    user := none
    rawBody := "b"
    parsed := some tokenPayload }

/-- Witness for C9: even though the concrete request is rejected (missing
signature), the identity was already upgraded to the token's user. -/
theorem token_identity_adopted_before_checks_witness :
    (post sampleWorld sampleHmac tokenReq).finalUser = some ⟨7⟩ :=
  token_identity_adopted_before_checks sampleWorld sampleHmac tokenReq tokenPayload
    "tok" ⟨7⟩ rfl rfl rfl rfl

/-! ## C4: token absence or resolution failure is silent -/

/-- C4: for an unauthenticated caller, an absent embedded-token field, or a
present token whose resolution fails, leaves the caller unauthenticated and
surfaces no error at that stage: the response is exactly the one the same
request would get with the token field absent. -/
theorem token_absence_or_failure_is_silent (w : World)
    (hmacHex : String → String → String)
    (req : Request) (data : Payload)
    (hu : req.user = none)
    (hp : req.parsed = some data)
    (ht : authenticate_from_json_token w data = none) :
    (post w hmacHex req).finalUser = none ∧
    (post w hmacHex req).response =
      (post w hmacHex
        { req with parsed := some { data with accountToken := none } }).response := by
  have he1 : effectiveUser w req data = none := by simp [effectiveUser, hu, ht]
  have he2 : effectiveUser w { req with parsed := some { data with accountToken := none } }
      { data with accountToken := none } = none := by
    simp [effectiveUser, hu, authenticate_from_json_token]
  refine ⟨?_, ?_⟩
  · rw [post_finalUser w hmacHex req data hp, he1]
  · exact post_response_congr w hmacHex req _ data _ hp rfl rfl rfl rfl
      (he1.trans he2.symm) rfl rfl rfl

/-- A payload whose embedded token does not resolve in the sample world. -/
def failTokenPayload : Payload :=
  { event := none
    appId := none
    accountToken := some "badtok"
    install := { options := [], schemaProperties := [] } }

/-- The corresponding unauthenticated request. -/
def failTokenReq : Request :=
  { signature := some "x"
    variant := some "1"
    user := none
    rawBody := "b"
    parsed := some failTokenPayload }

/-- Witness for C4: the failing token leaves the concrete caller
unauthenticated, with the same response as without the token field. -/
theorem token_absence_or_failure_is_silent_witness :
    (post sampleWorld sampleHmac failTokenReq).finalUser = none ∧
    (post sampleWorld sampleHmac failTokenReq).response =
      (post sampleWorld sampleHmac
        { failTokenReq with
          parsed := some { failTokenPayload with accountToken := none } }).response :=
  token_absence_or_failure_is_silent sampleWorld sampleHmac failTokenReq
    failTokenPayload rfl rfl rfl

/-! ## C6: a missing or empty event is not rejected -/

/-- A parsed payload with no event field at all. -/
def noEventPayload : Payload :=
  { event := none
    appId := none
    accountToken := none
    install := { options := [("x", "y")], schemaProperties := [] } }

/-- A request with that payload and a valid signature and variant. -/
def noEventReq : Request :=
  { signature := some "prodsecretbody"
    variant := some "1"
    user := none
    rawBody := "body"
    parsed := some noEventPayload }

/-- C6 counterexample: the handler never requires a non-empty event — this
concrete request has no event field, a valid signature, and a valid
variant, and it *does* proceed to the default payload echo, answering 200
with the payload's install and `proceed = true` rather than being
rejected. -/
theorem missing_event_reaches_default_echo :
    (post sampleWorld sampleHmac noEventReq).response =
      ⟨200, .installProceed noEventPayload.install true⟩ := by
  decide

/-- C6 (amended): `post` requires a non-empty signature and variant but puts
no requirement on the event: an otherwise valid request whose event is
absent or empty skips every wizard step and falls through to the default
payload echo, answering 200 with the payload's install unchanged. -/
theorem missing_event_falls_through_to_echo (w : World)
    (hmacHex : String → String → String)
    (req : Request) (data : Payload) (s : String)
    (hp : req.parsed = some data)
    (he : data.event = none ∨ data.event = some "")
    (hs : req.signature = some s) (hs0 : s ≠ "")
    (hv : req.variant = some "1")
    (hsig : s = hmacHex w.cloudflareSecretKey req.rawBody) :
    (post w hmacHex req).response = ⟨200, .installProceed data.install true⟩ := by
  rw [post_verified_prod w hmacHex req data s hp hs hs0 hv hsig]
  rcases he with he | he <;> simp [dispatchEvent, he]

/-- A payload with an *empty* event string. -/
def emptyEventPayload : Payload :=
  { event := some ""
    appId := none
    accountToken := none
    install := { options := [], schemaProperties := [] } }

/-- The corresponding valid request. -/
def emptyEventReq : Request :=
  { signature := some "prodsecretbody"
    variant := some "1"
    user := none
    rawBody := "body"
    parsed := some emptyEventPayload }

/-- Witness for the amended C6 at the empty-event request. -/
theorem missing_event_falls_through_to_echo_witness :
    (post sampleWorld sampleHmac emptyEventReq).response =
      ⟨200, .installProceed emptyEventPayload.install true⟩ :=
  missing_event_falls_through_to_echo sampleWorld sampleHmac emptyEventReq
    emptyEventPayload "prodsecretbody" rfl (Or.inr rfl) rfl (by decide) rfl rfl
